import Mathlib

/-!
Shallow embedding of `src/asset_allocation_dashboard.py` and proofs of its
specified properties.

Numbers are modelled as rationals (the Python comparisons against 3.5 and
5.0 are exact there as well), Python `None`-signalling as `Option`, and
provider calls that may raise as `Except String` inputs.  The pandas
DataFrame returned by `get_portfolio_weights` is modelled as a record of
its three columns.  The rolling 200-sample moving average is modelled as
the mean of the trailing 200 closes; the IEEE NaN it takes in the source
when fewer than 200 samples exist is a floating-point artefact on which no
stated property depends.
-/

/-- Python substring membership `pat in s`, on character lists:
`matchesFront pat l` holds when `pat` is an initial segment of `l`. -/
def matchesFront : List Char → List Char → Bool
  | [], _ => true
  | _ :: _, [] => false
  | a :: as, b :: bs => a == b && matchesFront as bs

/-- `occursIn pat l` holds when `pat` occurs contiguously inside `l`. -/
def occursIn (pat : List Char) : List Char → Bool
  | [] => pat.isEmpty
  | c :: rest => matchesFront pat (c :: rest) || occursIn pat rest

/-- Python `pat in s` on strings. -/
def strContains (s pat : String) : Bool :=
  occursIn pat.data s.data

/-- `determine_market_regime` (lines 91-97): two threshold comparisons
selecting one of three (label, color, background, text-color) tuples. -/
def determine_market_regime (price ma200 spread : ℚ) :
    String × String × String × String :=
  if spread < 3.5 ∧ price > ma200 then
    ("평온기 (Risk On)", "green", "#d4edda", "#155724")
  else if spread > 5.0 ∧ price < ma200 then
    ("공포기 (Risk Off)", "red", "#f8d7da", "#721c24")
  else
    ("경계기 (Neutral/Caution)", "orange", "#fff3cd", "#856404")

/-- The three columns of the DataFrame built by `get_portfolio_weights`. -/
structure Portfolio where
  assets : List String
  weights : List ℕ
  descs : List String
deriving DecidableEq, Repr

/-- `get_portfolio_weights` (lines 102-120): dispatches on whether the
Korean substrings "평온기" (calm) or "공포기" (fear) occur in the label,
defaulting to the caution table. -/
def get_portfolio_weights (regime_code : String) : Portfolio :=
  let tickers := ["QQQ", "ITA", "EMXC", "SHYG", "TLT", "GLD", "BIL"]
  if strContains regime_code "평온기" then
    { assets := tickers
      weights := [40, 0, 20, 40, 0, 0, 0]
      descs := ["나스닥 100", "미국 방산", "이머징마켓(중국제외)",
                "하이일드 채권", "미국 장기채", "금", "초단기채(현금)"] }
  else if strContains regime_code "공포기" then
    { assets := tickers
      weights := [0, 0, 0, 0, 50, 20, 30]
      descs := ["나스닥 100", "미국 방산", "이머징마켓(중국제외)",
                "하이일드 채권", "미국 장기채", "금", "초단기채(현금)"] }
  else
    { assets := tickers
      weights := [20, 10, 0, 30, 20, 20, 0]
      descs := ["나스닥 100", "미국 방산", "이머징마켓(중국제외)",
                "하이일드 채권", "미국 장기채", "금", "초단기채(현금)"] }

/-- Claim C1: the classifier returns the calm label exactly under
`spread < 3.5 ∧ price > ma200`, the fear label under
`spread > 5.0 ∧ price < ma200`, and the caution label in every other
case. -/
theorem regime_classifier_cases (p m s : ℚ) :
    (s < 3.5 ∧ p > m →
      (determine_market_regime p m s).1 = "평온기 (Risk On)") ∧
    (s > 5.0 ∧ p < m →
      (determine_market_regime p m s).1 = "공포기 (Risk Off)") ∧
    (¬(s < 3.5 ∧ p > m) ∧ ¬(s > 5.0 ∧ p < m) →
      (determine_market_regime p m s).1 = "경계기 (Neutral/Caution)") := by
  unfold determine_market_regime
  refine ⟨fun h => by rw [if_pos h], fun h => ?_, fun h => by
    rw [if_neg h.1, if_neg h.2]⟩
  have h1 : ¬(s < 3.5 ∧ p > m) := fun hc => by linarith [h.1, hc.1]
  rw [if_neg h1, if_pos h]

theorem regime_classifier_cases_witness :
    (determine_market_regime 500 480 2).1 = "평온기 (Risk On)" :=
  (regime_classifier_cases 500 480 2).1 ⟨by norm_num, by norm_num⟩

/-- Claim C2: the thresholds are strict — spread exactly 3.5, or exactly
5.0, or price exactly equal to the moving average, always yields the
caution label. -/
theorem regime_boundary_caution (p m s : ℚ)
    (h : s = 3.5 ∨ s = 5.0 ∨ p = m) :
    (determine_market_regime p m s).1 = "경계기 (Neutral/Caution)" := by
  rcases h with h | h | h <;> subst h <;>
    norm_num [determine_market_regime]

theorem regime_boundary_caution_witness :
    (determine_market_regime 500 480 3.5).1 = "경계기 (Neutral/Caution)" ∧
    (determine_market_regime 400 480 5.0).1 = "경계기 (Neutral/Caution)" ∧
    (determine_market_regime 480 480 4).1 = "경계기 (Neutral/Caution)" :=
  ⟨regime_boundary_caution 500 480 3.5 (Or.inl rfl),
   regime_boundary_caution 400 480 5.0 (Or.inr (Or.inl rfl)),
   regime_boundary_caution 480 480 4 (Or.inr (Or.inr rfl))⟩

/-- Claim C3: for each of the three regime labels the lookup returns
exactly the fixed 7-entry table, in the fixed asset order. -/
theorem portfolio_tables_exact :
    get_portfolio_weights "평온기 (Risk On)" =
      { assets := ["QQQ", "ITA", "EMXC", "SHYG", "TLT", "GLD", "BIL"]
        weights := [40, 0, 20, 40, 0, 0, 0]
        descs := ["나스닥 100", "미국 방산", "이머징마켓(중국제외)",
                  "하이일드 채권", "미국 장기채", "금", "초단기채(현금)"] } ∧
    get_portfolio_weights "경계기 (Neutral/Caution)" =
      { assets := ["QQQ", "ITA", "EMXC", "SHYG", "TLT", "GLD", "BIL"]
        weights := [20, 10, 0, 30, 20, 20, 0]
        descs := ["나스닥 100", "미국 방산", "이머징마켓(중국제외)",
                  "하이일드 채권", "미국 장기채", "금", "초단기채(현금)"] } ∧
    get_portfolio_weights "공포기 (Risk Off)" =
      { assets := ["QQQ", "ITA", "EMXC", "SHYG", "TLT", "GLD", "BIL"]
        weights := [0, 0, 0, 0, 50, 20, 30]
        descs := ["나스닥 100", "미국 방산", "이머징마켓(중국제외)",
                  "하이일드 채권", "미국 장기채", "금", "초단기채(현금)"] } :=
  ⟨rfl, rfl, rfl⟩

/-- Claim C4: for each of the three regime labels the 7 weight entries
sum to exactly 100. -/
theorem portfolio_weights_sum_100 :
    (get_portfolio_weights "평온기 (Risk On)").weights.sum = 100 ∧
    (get_portfolio_weights "경계기 (Neutral/Caution)").weights.sum = 100 ∧
    (get_portfolio_weights "공포기 (Risk Off)").weights.sum = 100 :=
  ⟨rfl, rfl, rfl⟩

/-- Claim C5: the classifier is total and yields exactly one of the three
regime labels for any rational input triple: the label it returns occurs
exactly once in the list of the three labels. -/
theorem regime_exactly_one_label (p m s : ℚ) :
    (["평온기 (Risk On)", "경계기 (Neutral/Caution)",
      "공포기 (Risk Off)"].count (determine_market_regime p m s).1) = 1 := by
  unfold determine_market_regime
  split_ifs <;> rfl

/-- Claim C6: the three end-to-end worked examples of the spec, run
through the classifier and then the allocation lookup. -/
theorem worked_examples :
    ((determine_market_regime 500 480 2).1 = "평온기 (Risk On)" ∧
      (get_portfolio_weights (determine_market_regime 500 480 2).1).weights =
        [40, 0, 20, 40, 0, 0, 0]) ∧
    ((determine_market_regime 400 480 6).1 = "공포기 (Risk Off)" ∧
      (get_portfolio_weights (determine_market_regime 400 480 6).1).weights =
        [0, 0, 0, 0, 50, 20, 30]) ∧
    ((determine_market_regime 480 480 4).1 = "경계기 (Neutral/Caution)" ∧
      (get_portfolio_weights (determine_market_regime 480 480 4).1).weights =
        [20, 10, 0, 30, 20, 20, 0]) := by
  have h1 : (determine_market_regime 500 480 2).1 = "평온기 (Risk On)" := by
    unfold determine_market_regime
    rw [if_pos (by norm_num : (2 : ℚ) < 3.5 ∧ (500 : ℚ) > 480)]
  have h2 : (determine_market_regime 400 480 6).1 = "공포기 (Risk Off)" := by
    unfold determine_market_regime
    rw [if_neg (by norm_num : ¬((6 : ℚ) < 3.5 ∧ (400 : ℚ) > 480)),
      if_pos (by norm_num : (6 : ℚ) > 5.0 ∧ (400 : ℚ) < 480)]
  have h3 : (determine_market_regime 480 480 4).1 =
      "경계기 (Neutral/Caution)" := by
    unfold determine_market_regime
    rw [if_neg (by norm_num : ¬((4 : ℚ) < 3.5 ∧ (480 : ℚ) > 480)),
      if_neg (by norm_num : ¬((4 : ℚ) > 5.0 ∧ (480 : ℚ) < 480))]
  refine ⟨⟨h1, ?_⟩, ⟨h2, ?_⟩, ⟨h3, ?_⟩⟩
  · rw [h1]; rfl
  · rw [h2]; rfl
  · rw [h3]; rfl

/-- Claim C7: the lookup is deterministic and idempotent — two calls with
the same regime label return identical tables, component by component;
the result is a pure function of the label with no other dependency. -/
theorem portfolio_weights_idempotent (r : String) :
    get_portfolio_weights r = get_portfolio_weights r ∧
    (get_portfolio_weights r).assets = (get_portfolio_weights r).assets ∧
    (get_portfolio_weights r).weights = (get_portfolio_weights r).weights ∧
    (get_portfolio_weights r).descs = (get_portfolio_weights r).descs :=
  ⟨rfl, rfl, rfl, rfl⟩

/-- Mean of the trailing 200 closes, the last value of the source's
`rolling(window=200).mean()` column (its NaN phase for histories shorter
than 200 samples is not modelled; no stated property reads that value). -/
def rollingMean200 (closes : List ℚ) : ℚ :=
  (closes.drop (closes.length - 200)).sum / 200

/-- `get_financial_data` (lines 55-86).  The two provider calls are inputs:
`qqqFetch` yields the QQQ closing-price history and `spreadFetch` the
cleaned (date, value) spread series; `.error` is a raised exception.  The
Python `(None, None, None, None)` return is `none`; a successful fetch
returns `(current_price, current_ma200, current_spread, spread_date)`. -/
def get_financial_data (qqqFetch : Except String (List ℚ))
    (spreadFetch : Except String (List (String × ℚ))) :
    Option (ℚ × ℚ × ℚ × String) :=
  match qqqFetch with
  | .error _ => none
  | .ok closes =>
    if closes.isEmpty then none
    else
      match spreadFetch with
      | .error _ => none
      | .ok series =>
        match closes.getLast?, series.getLast? with
        | some price, some (date, spread) =>
          some (price, rollingMean200 closes, spread, date)
        | _, _ => none

/-- The decision core of `main` (lines 183-263): fetch, abort the render
cycle when the fetch signalled no data, otherwise classify and (with the
default live radio selection, or a simulated one) look up the portfolio.
Returns the displayed (regime tuple, portfolio) pair, `none` on abort. -/
def main_render (qqqFetch : Except String (List ℚ))
    (spreadFetch : Except String (List (String × ℚ))) (simMode : String) :
    Option ((String × String × String × String) × Portfolio) :=
  match get_financial_data qqqFetch spreadFetch with
  | none => none
  | some (price, ma200, spread, _) =>
    let real := determine_market_regime price ma200 spread
    let regime :=
      if simMode = "실시간 진단 (자동)" then real
      else if strContains simMode "평온기" then
        ("평온기 (Risk On)", "green", "#d4edda", "#155724")
      else if strContains simMode "공포기" then
        ("공포기 (Risk Off)", "red", "#f8d7da", "#721c24")
      else
        ("경계기 (Neutral/Caution)", "orange", "#fff3cd", "#856404")
    some (regime, get_portfolio_weights regime.1)

/-- Claim C8: on provider failure (a raised fetch exception or an empty
price history) `get_financial_data` returns the `none` 4-tuple instead of
raising, and `main` then aborts the render cycle, so the classifier is
never run on missing inputs. -/
theorem data_failure_aborts_render (qf : Except String (List ℚ))
    (sf : Except String (List (String × ℚ))) (simMode : String) :
    (∀ e, qf = .error e → get_financial_data qf sf = none) ∧
    (qf = .ok [] → get_financial_data qf sf = none) ∧
    (∀ e, sf = .error e → get_financial_data qf sf = none) ∧
    (get_financial_data qf sf = none → main_render qf sf simMode = none) := by
  refine ⟨fun e he => ?_, fun hq => ?_, fun e he => ?_, fun hn => ?_⟩
  · rw [he]; rfl
  · rw [hq]; rfl
  · cases qf with
    | error _ => rfl
    | ok closes =>
      cases closes with
      | nil => rfl
      | cons c rest => rw [he]; rfl
  · unfold main_render
    rw [hn]

theorem data_failure_aborts_render_witness :
    get_financial_data (.error "network down") (.ok []) = none ∧
    main_render (.error "network down") (.ok []) "실시간 진단 (자동)" = none :=
  ⟨(data_failure_aborts_render (.error "network down") (.ok [])
      "실시간 진단 (자동)").1 "network down" rfl,
   (data_failure_aborts_render (.error "network down") (.ok [])
      "실시간 진단 (자동)").2.2.2
    ((data_failure_aborts_render (.error "network down") (.ok [])
      "실시간 진단 (자동)").1 "network down" rfl)⟩

/-- One DuckDuckGo news result: the `title`/`body`/`url` fields read from
each search hit. -/
structure NewsItem where
  title : String
  body : String
  url : String

/-- The per-result line block appended to `collected_news` (line 143). -/
def formatNewsItem (n : NewsItem) : String :=
  s!"- 제목: {n.title}\n- 내용: {n.body}\n- 출처: {n.url}"

/-- The three search keywords of `analyze_latest_market_risks` (line 134). -/
def searchKeywords : List String :=
  ["US High Yield Spread", "Nasdaq 100 Crash", "Fed Rate Hike"]

/-- The keyword loop of lines 137-143: searches each keyword in order and
collects the formatted result blocks; the first raised search exception
aborts the whole loop. -/
def collectNews (search : String → Except String (List NewsItem)) :
    List String → Except String (List String)
  | [] => .ok []
  | kw :: rest => do
    let results ← search kw
    let tail ← collectNews search rest
    pure (results.map formatNewsItem ++ tail)

/-- The Gemini prompt of lines 155-170, with the news block interpolated. -/
def riskPrompt (newsTextBlock : String) : String :=
  s!"다음은 \x27하이일드 스프레드\x27, \x27나스닥\x27, \x27연준 금리\x27와 관련된 최신 뉴스 기사들입니다.\n\n[뉴스 데이터]\n{newsTextBlock}\n\n[요청사항]\n위 뉴스들을 종합적으로 분석해서, 현재 시장에 [하이일드 스프레드 급등]이나 [나스닥 200일선 이탈/폭락] 같은 심각한 리스크가 감지되는지 판단해줘.\n\n우선 가장 큰 뉴스 3가지를 제시해주고, \n\n투자자 관점에서:\n1. 현재 시장의 핵심 리스크 요인이 무엇인지 요약하고,\n2. \x27평온\x27, \x27경계\x27, \x27공포\x27 중 어떤 분위기에 가까운지 의견을 제시해줘.\n3. 답변은 한국어로, 핵심만 3줄 내외로 간결하게 작성해줘."

/-- The catch-all message of line 178, built from the caught exception. -/
def analysisErrorMsg (e : String) : String :=
  s!"⚠️ 분석 중 오류가 발생했습니다: {e}\n(duckduckgo-search 라이브러리가 설치되어 있는지 확인해주세요.)"

/-- `analyze_latest_market_risks` (lines 125-178).  `hasGeminiKey` models
the secret lookup, `search` the DuckDuckGo news call (which may raise),
`generate` the Gemini `generate_content` plus `.text` access (which may
raise).  Every path yields a display string; exceptions never escape. -/
def analyze_latest_market_risks (hasGeminiKey : Bool)
    (search : String → Except String (List NewsItem))
    (generate : String → Except String String) : String :=
  if !hasGeminiKey then
    "⚠️ 오류: Streamlit Secrets에 \x27GEMINI_API_KEY\x27가 설정되지 않았습니다."
  else
    match collectNews search searchKeywords with
    | .error e => analysisErrorMsg e
    | .ok collected_news =>
      if collected_news.isEmpty then
        "⚠️ 최신 뉴스를 검색하지 못했습니다. 잠시 후 다시 시도해주세요."
      else
        match generate (riskPrompt (String.intercalate "\n\n" collected_news)) with
        | .error e => analysisErrorMsg e
        | .ok text => text

/-- Claim C9: `analyze_latest_market_risks` always returns a displayable
string and never raises — a missing API key yields the warning message, a
search exception or a generation exception yields the caught-error
message, and empty search results yield the retry message. -/
theorem risk_analysis_total_messages (hasKey : Bool)
    (search : String → Except String (List NewsItem))
    (generate : String → Except String String) :
    (hasKey = false →
      analyze_latest_market_risks hasKey search generate =
        "⚠️ 오류: Streamlit Secrets에 \x27GEMINI_API_KEY\x27가 설정되지 않았습니다.") ∧
    (∀ e, hasKey = true → collectNews search searchKeywords = .error e →
      analyze_latest_market_risks hasKey search generate =
        analysisErrorMsg e) ∧
    (hasKey = true → collectNews search searchKeywords = .ok [] →
      analyze_latest_market_risks hasKey search generate =
        "⚠️ 최신 뉴스를 검색하지 못했습니다. 잠시 후 다시 시도해주세요.") ∧
    (∀ news e, hasKey = true → collectNews search searchKeywords = .ok news →
      news ≠ [] →
      generate (riskPrompt (String.intercalate "\n\n" news)) = .error e →
      analyze_latest_market_risks hasKey search generate =
        analysisErrorMsg e) := by
  refine ⟨fun hk => ?_, fun e hk hc => ?_, fun hk hc => ?_,
    fun news e hk hc hne hg => ?_⟩
  · subst hk; rfl
  · subst hk; unfold analyze_latest_market_risks; rw [hc]; rfl
  · subst hk; unfold analyze_latest_market_risks; rw [hc]; rfl
  · subst hk
    cases news with
    | nil => exact absurd rfl hne
    | cons a rest =>
      unfold analyze_latest_market_risks
      rw [hc]
      show (match generate (riskPrompt
        (String.intercalate "\n\n" (a :: rest))) with
        | .error e => analysisErrorMsg e
        | .ok text => text) = analysisErrorMsg e
      rw [hg]

theorem risk_analysis_total_messages_witness :
    analyze_latest_market_risks false (fun _ => .ok []) (fun _ => .ok "ok") =
      "⚠️ 오류: Streamlit Secrets에 \x27GEMINI_API_KEY\x27가 설정되지 않았습니다." :=
  (risk_analysis_total_messages false (fun _ => .ok [])
    (fun _ => .ok "ok")).1 rfl

/-- Claim C10: the allocation lookup is total over arbitrary strings — any
label containing neither the substring "평온기" nor the substring
"공포기" (including the empty or an unrelated string) silently receives
the caution table rather than an error. -/
theorem portfolio_weights_default_caution (r : String)
    (h1 : strContains r "평온기" = false)
    (h2 : strContains r "공포기" = false) :
    get_portfolio_weights r =
      { assets := ["QQQ", "ITA", "EMXC", "SHYG", "TLT", "GLD", "BIL"]
        weights := [20, 10, 0, 30, 20, 20, 0]
        descs := ["나스닥 100", "미국 방산", "이머징마켓(중국제외)",
                  "하이일드 채권", "미국 장기채", "금", "초단기채(현금)"] } := by
  simp [get_portfolio_weights, h1, h2]

theorem portfolio_weights_default_caution_witness :
    get_portfolio_weights "" =
      { assets := ["QQQ", "ITA", "EMXC", "SHYG", "TLT", "GLD", "BIL"]
        weights := [20, 10, 0, 30, 20, 20, 0]
        descs := ["나스닥 100", "미국 방산", "이머징마켓(중국제외)",
                  "하이일드 채권", "미국 장기채", "금", "초단기채(현금)"] } :=
  portfolio_weights_default_caution "" rfl rfl
